import Mathlib

/-!
Verification of the MindfulLiving RAG pipeline.

Shallow embedding of the Python sources:
* `src/backend/functions/embeddings_service.py` (cosine similarity, brute-force
  top-k retrieval),
* `src/backend/functions/talk_to_me_function.py` (live retriever, LLM generator
  with template fallback, response assembly),
* `src/scripts/quality_check_all.py` (heuristic quality scorer and annotation job),
* `src/scripts/generate_all_responses.py` (idempotent response-generation job).

Python floats are modelled as exact rationals.  A cosine similarity value
`dot(a,b) / (‖a‖·‖b‖)` is irrational in general, so it is represented exactly by
the pair `(dot(a,b), ‖a‖²·‖b‖²)` (the structure `SimScore`), denoting the real
number `num / Real.sqrt den2`; the division-by-zero case (NaN in numpy) is
represented by `none`.  The comparison `SimScore.leP` is proved equivalent to
the comparison of the denoted real values (`SimScore.leP_iff_val`), so sorting
in the model matches sorting of the float similarities in the source.
-/

namespace MindfulLiving

/-! ## Vectors of rationals -/

/-- `np.dot a b`: sum of pointwise products (vectors of equal length). -/
def dotQ (a b : List ℚ) : ℚ :=
  (List.zipWith (· * ·) a b).sum

/-- `np.linalg.norm v` squared: the sum of the squares of the entries. -/
def normSq (v : List ℚ) : ℚ :=
  dotQ v v

theorem zipWith_mul_self (a : List ℚ) :
    List.zipWith (· * ·) a a = a.map (fun x => x * x) := by
  induction a with
  | nil => rfl
  | cons x xs ih => simp [List.zipWith, ih]

theorem normSq_nonneg (v : List ℚ) : 0 ≤ normSq v := by
  rw [normSq, dotQ, zipWith_mul_self]
  induction v with
  | nil => simp
  | cons x xs ih =>
    simp only [List.map_cons, List.sum_cons]
    have := mul_self_nonneg x
    linarith

/-! ## Similarity scores

A defined cosine-similarity value: `num` is `np.dot(a,b)` and `den2` is the
square of the denominator `np.linalg.norm(a) * np.linalg.norm(b)`; the value
denoted is `num / Real.sqrt den2`. -/

structure SimScore where
  num : ℚ
  den2 : ℚ
  den2_pos : 0 < den2

/-- The real number denoted by a `SimScore`. -/
noncomputable def SimScore.val (s : SimScore) : ℝ :=
  (s.num : ℝ) / Real.sqrt (s.den2 : ℝ)

/-- Decidable comparison of two similarity scores, by case analysis on the
signs of the numerators (the denominators are positive). -/
def SimScore.leP (s t : SimScore) : Prop :=
  (s.num ≤ 0 ∧ 0 ≤ t.num) ∨
  (0 < s.num ∧ 0 < t.num ∧ s.num ^ 2 * t.den2 ≤ t.num ^ 2 * s.den2) ∨
  (s.num < 0 ∧ t.num < 0 ∧ t.num ^ 2 * s.den2 ≤ s.num ^ 2 * t.den2)

instance : DecidableRel SimScore.leP := fun s t => by
  unfold SimScore.leP
  exact inferInstance

theorem SimScore.sqrt_den2_pos (s : SimScore) : 0 < Real.sqrt (s.den2 : ℝ) :=
  Real.sqrt_pos.mpr (by exact_mod_cast s.den2_pos)

/-- Comparison of `a·√q` and `b·√p` for positive `a, b` reduces to comparison
of the squared products. -/
theorem mul_sqrt_le_mul_sqrt_iff {a b p q : ℝ} (ha : 0 < a) (hb : 0 < b)
    (hp : 0 ≤ p) (hq : 0 ≤ q) :
    a * Real.sqrt q ≤ b * Real.sqrt p ↔ a ^ 2 * q ≤ b ^ 2 * p := by
  rw [mul_self_le_mul_self_iff (mul_nonneg ha.le (Real.sqrt_nonneg q))
    (mul_nonneg hb.le (Real.sqrt_nonneg p))]
  have hq' : Real.sqrt q * Real.sqrt q = q := Real.mul_self_sqrt hq
  have hp' : Real.sqrt p * Real.sqrt p = p := Real.mul_self_sqrt hp
  constructor
  · intro h; nlinarith [h, hq', hp']
  · intro h; nlinarith [h, hq', hp']

/-- The decidable comparison agrees with comparison of the denoted reals. -/
theorem SimScore.leP_iff_val (s t : SimScore) : s.leP t ↔ s.val ≤ t.val := by
  have hds : (0:ℝ) < (s.den2 : ℝ) := by exact_mod_cast s.den2_pos
  have hdt : (0:ℝ) < (t.den2 : ℝ) := by exact_mod_cast t.den2_pos
  have hss := s.sqrt_den2_pos
  have hst := t.sqrt_den2_pos
  have hval : s.val ≤ t.val ↔
      (s.num : ℝ) * Real.sqrt (t.den2 : ℝ) ≤ (t.num : ℝ) * Real.sqrt (s.den2 : ℝ) := by
    unfold SimScore.val
    rw [div_le_div_iff₀ hss hst]
  rw [hval]
  constructor
  · rintro (⟨h1, h2⟩ | ⟨h1, h2, h3⟩ | ⟨h1, h2, h3⟩)
    · have hs' : (s.num : ℝ) ≤ 0 := by exact_mod_cast h1
      have ht' : (0:ℝ) ≤ (t.num : ℝ) := by exact_mod_cast h2
      calc (s.num : ℝ) * Real.sqrt (t.den2 : ℝ) ≤ 0 := mul_nonpos_of_nonpos_of_nonneg hs' hst.le
        _ ≤ (t.num : ℝ) * Real.sqrt (s.den2 : ℝ) := mul_nonneg ht' hss.le
    · have hs' : (0:ℝ) < (s.num : ℝ) := by exact_mod_cast h1
      have ht' : (0:ℝ) < (t.num : ℝ) := by exact_mod_cast h2
      exact (mul_sqrt_le_mul_sqrt_iff hs' ht' hds.le hdt.le).mpr (by exact_mod_cast h3)
    · have hs' : (s.num : ℝ) < 0 := by exact_mod_cast h1
      have ht' : (t.num : ℝ) < 0 := by exact_mod_cast h2
      have h3' : (-(t.num : ℝ)) ^ 2 * (s.den2 : ℝ) ≤ (-(s.num : ℝ)) ^ 2 * (t.den2 : ℝ) := by
        have : ((t.num : ℝ)) ^ 2 * (s.den2 : ℝ) ≤ ((s.num : ℝ)) ^ 2 * (t.den2 : ℝ) := by
          exact_mod_cast h3
        nlinarith [this]
      have := (mul_sqrt_le_mul_sqrt_iff (a := -(t.num : ℝ)) (b := -(s.num : ℝ))
        (by linarith) (by linarith) hdt.le hds.le).mpr h3'
      linarith
  · intro h
    rcases le_or_lt s.num 0 with hs | hs <;> rcases le_or_lt t.num 0 with ht | ht
    · rcases lt_or_eq_of_le ht with ht0 | ht0
      · rcases lt_or_eq_of_le hs with hs0 | hs0
        · -- both strictly negative
          right; right
          refine ⟨hs0, ht0, ?_⟩
          have hs' : (s.num : ℝ) < 0 := by exact_mod_cast hs0
          have ht' : (t.num : ℝ) < 0 := by exact_mod_cast ht0
          have h' : (-(t.num : ℝ)) * Real.sqrt (s.den2 : ℝ) ≤
              (-(s.num : ℝ)) * Real.sqrt (t.den2 : ℝ) := by linarith
          have := (mul_sqrt_le_mul_sqrt_iff (a := -(t.num : ℝ)) (b := -(s.num : ℝ))
            (by linarith) (by linarith) hdt.le hds.le).mp h'
          have goal' : (t.num : ℝ) ^ 2 * (s.den2 : ℝ) ≤ (s.num : ℝ) ^ 2 * (t.den2 : ℝ) := by
            nlinarith [this]
          exact_mod_cast goal'
        · -- s.num = 0, t.num < 0: contradicts h
          exfalso
          have hs' : (s.num : ℝ) = 0 := by exact_mod_cast hs0
          have ht' : (t.num : ℝ) < 0 := by exact_mod_cast ht0
          rw [hs', zero_mul] at h
          nlinarith [mul_pos (neg_pos.mpr ht') hss]
      · exact Or.inl ⟨hs, ht0.ge⟩
    · exact Or.inl ⟨hs, ht.le⟩
    · -- 0 < s.num and t.num ≤ 0: contradicts h
      exfalso
      have hs' : (0:ℝ) < (s.num : ℝ) := by exact_mod_cast hs
      have ht' : (t.num : ℝ) ≤ 0 := by exact_mod_cast ht
      nlinarith [mul_pos hs' hst, mul_nonpos_of_nonpos_of_nonneg ht' hss.le]
    · right; left
      refine ⟨hs, ht, ?_⟩
      have hs' : (0:ℝ) < (s.num : ℝ) := by exact_mod_cast hs
      have ht' : (0:ℝ) < (t.num : ℝ) := by exact_mod_cast ht
      have := (mul_sqrt_le_mul_sqrt_iff hs' ht' hds.le hdt.le).mp h
      exact_mod_cast this

theorem SimScore.leP_total (s t : SimScore) : s.leP t ∨ t.leP s := by
  rcases le_total s.val t.val with h | h
  · exact Or.inl ((SimScore.leP_iff_val s t).mpr h)
  · exact Or.inr ((SimScore.leP_iff_val t s).mpr h)

theorem SimScore.leP_trans {s t u : SimScore} (h1 : s.leP t) (h2 : t.leP u) : s.leP u :=
  (SimScore.leP_iff_val s u).mpr
    (le_trans ((SimScore.leP_iff_val s t).mp h1) ((SimScore.leP_iff_val t u).mp h2))

/-! ## Cosine similarity (embeddings_service.py, lines 182-186)

    def cosine_similarity(a, b):
        a, b = np.array(a), np.array(b)
        return float(np.dot(a, b) / (np.linalg.norm(a) * np.linalg.norm(b)))

There is no special case for a zero denominator: when either vector is
all-zero the float division is `0.0 / 0.0`, which numpy evaluates to NaN.
The NaN outcome is modelled by `none`; a defined value `dot/(‖a‖·‖b‖)` is
modelled by `some ⟨dot, ‖a‖²·‖b‖², _⟩`. -/

def cosine_similarity (a b : List ℚ) : Option SimScore :=
  if h : normSq a * normSq b = 0 then
    none
  else
    some ⟨dotQ a b, normSq a * normSq b,
      lt_of_le_of_ne (mul_nonneg (normSq_nonneg a) (normSq_nonneg b)) (Ne.symm h)⟩

/-- The same similarity formula inlined in `retrieve_scenarios`
(talk_to_me_function.py, lines 108-110):

    similarity = float(np.dot(query_embedding, embedding) /
                     (np.linalg.norm(query_embedding) * np.linalg.norm(embedding)))
-/
def inlineSimilarity (query_embedding embedding : List ℚ) : Option SimScore :=
  if h : normSq query_embedding * normSq embedding = 0 then
    none
  else
    some ⟨dotQ query_embedding embedding, normSq query_embedding * normSq embedding,
      lt_of_le_of_ne (mul_nonneg (normSq_nonneg query_embedding) (normSq_nonneg embedding))
        (Ne.symm h)⟩

theorem inlineSimilarity_eq_cosine (a b : List ℚ) :
    inlineSimilarity a b = cosine_similarity a b := rfl

/-! ## Retrieval (embeddings_service.py, lines 188-218) -/

/-- An embedding record stored in the `_embeddings` collection (only the
fields the retriever reads). -/
structure EmbeddingRecord where
  scenario_id : String
  embedding : List ℚ

/-- Ordering on the similarity key used by
`results.sort(key=lambda x: x[1], reverse=True)`.  On defined (`some`)
scores it is the real-number comparison of the float similarities; `none`
(NaN) scores have no meaningful float order in the source, and the claims
about sorting only concern corpora whose similarities are all defined. -/
def simKeyLe : Option SimScore → Option SimScore → Prop
  | none, _ => True
  | some _, none => False
  | some s, some t => s.leP t

instance : DecidableRel simKeyLe := fun a b => by
  cases a <;> cases b <;> simp only [simKeyLe] <;> infer_instance

/-- Descending order on `(scenario_id, similarity)` pairs: `x` may precede
`y` when `y`'s similarity key is at most `x`'s. -/
def candRel (x y : String × Option SimScore) : Prop :=
  simKeyLe y.2 x.2

instance : DecidableRel candRel := fun x y => by
  unfold candRel
  infer_instance

instance : IsTotal (String × Option SimScore) candRel where
  total x y := by
    unfold candRel
    rcases hx : x.2 with _ | s <;> rcases hy : y.2 with _ | t
    · simp [simKeyLe]
    · simp [simKeyLe]
    · simp [simKeyLe]
    · simpa [simKeyLe] using (SimScore.leP_total t s)

instance : IsTrans (String × Option SimScore) candRel where
  trans x y z := by
    unfold candRel
    rcases x.2 with _ | s <;> rcases y.2 with _ | t <;> rcases z.2 with _ | u <;>
      simp [simKeyLe]
    exact fun h1 h2 => SimScore.leP_trans h2 h1

/-- `search_similar_scenarios` (embeddings_service.py, lines 188-218): score
every stored embedding against the query, sort descending by similarity and
return the first `top_k` pairs.

    results = []
    for doc in docs:
        ...
        similarity = cosine_similarity(query_embedding, embedding)
        results.append((scenario_id, similarity))
    results.sort(key=lambda x: x[1], reverse=True)
    return results[:top_k]
-/
def search_similar_scenarios (corpus : List EmbeddingRecord) (query_embedding : List ℚ)
    (top_k : Nat) : List (String × Option SimScore) :=
  let results := corpus.map fun r => (r.scenario_id, cosine_similarity query_embedding r.embedding)
  (List.insertionSort candRel results).take top_k

/-- The candidate-ranking stage of `retrieve_scenarios`
(talk_to_me_function.py, lines 99-118), which duplicates the same logic with
the inlined similarity formula:

    candidates.append({'scenario_id': scenario_id, 'similarity': similarity})
    candidates.sort(key=lambda x: x['similarity'], reverse=True)
    top_candidates = candidates[:top_k]
-/
def retrieve_candidates (corpus : List EmbeddingRecord) (query_embedding : List ℚ)
    (top_k : Nat) : List (String × Option SimScore) :=
  let candidates := corpus.map fun r => (r.scenario_id, inlineSimilarity query_embedding r.embedding)
  (List.insertionSort candRel candidates).take top_k

/-- Real value denoted by an optional similarity score (`none`, the NaN case,
is given the junk value 0; the sortedness statements only use this on
defined scores). -/
noncomputable def simVal : Option SimScore → ℝ
  | none => 0
  | some s => s.val

theorem cosine_similarity_isSome {a b : List ℚ} (ha : normSq a ≠ 0) (hb : normSq b ≠ 0) :
    ∃ s : SimScore, cosine_similarity a b = some s := by
  unfold cosine_similarity
  rw [dif_neg (mul_ne_zero ha hb)]
  exact ⟨_, rfl⟩

/-! ## Claims about the similarity scorer and the retriever -/

/-- Claim C1.  The claim states that for equal-length vectors with either
vector all-zero, both the standalone `cosine_similarity` and the inline
similarity of the live retriever return the defined value 0.  The code has
no such special case: the division is `0.0 / 0.0`, i.e. NaN (modelled as
`none`), at the all-zero inputs below — the claimed defined value 0 is never
produced.  This theorem evaluates both code sites at failing inputs. -/
theorem claim_C1_zero_vector_similarity_undefined :
    cosine_similarity [0, 0] [1, 2] = none ∧
    cosine_similarity [1, 2] [0, 0] = none ∧
    inlineSimilarity [0, 0] [1, 2] = none ∧
    inlineSimilarity [1, 2] [0, 0] = none := by
  refine ⟨?_, ?_, ?_, ?_⟩ <;> simp [cosine_similarity, inlineSimilarity, normSq, dotQ]

/-- Claim C8.  Running the retriever against an empty corpus returns an empty
result list (and, being a total function of its inputs, raises no error), for
every query vector and every `top_k`; likewise for the candidate stage of the
live retriever. -/
theorem claim_C8_empty_corpus_empty_result (query_embedding : List ℚ) (top_k : Nat) :
    search_similar_scenarios [] query_embedding top_k = [] ∧
    retrieve_candidates [] query_embedding top_k = [] := by
  constructor <;> simp [search_similar_scenarios, retrieve_candidates]

/-- Claim C2.  For a corpus of `n` embedding records and `0 < top_k ≤ n`, with
the query and all stored vectors non-zero (so every similarity is defined),
the retriever's output has exactly `top_k` `(scenario_id, similarity)` pairs,
the pairs are sorted in descending order of the (real-valued) similarity, and
each returned similarity is exactly the similarity scorer's result on the
query and that record's stored vector; the candidate stage of the live
retriever computes the identical output. -/
theorem claim_C2_retriever_topk (corpus : List EmbeddingRecord) (query_embedding : List ℚ)
    (top_k : Nat) (hk : 0 < top_k) (hkn : top_k ≤ corpus.length)
    (hq : normSq query_embedding ≠ 0)
    (hrec : ∀ r ∈ corpus, normSq r.embedding ≠ 0) :
    (search_similar_scenarios corpus query_embedding top_k).length = top_k ∧
    (search_similar_scenarios corpus query_embedding top_k).Pairwise
      (fun x y => simVal y.2 ≤ simVal x.2) ∧
    (∀ p ∈ search_similar_scenarios corpus query_embedding top_k,
      ∃ r ∈ corpus, p.1 = r.scenario_id ∧ p.2 = cosine_similarity query_embedding r.embedding) ∧
    retrieve_candidates corpus query_embedding top_k =
      search_similar_scenarios corpus query_embedding top_k := by
  have hmem : ∀ p ∈ search_similar_scenarios corpus query_embedding top_k,
      ∃ r ∈ corpus, p.1 = r.scenario_id ∧
        p.2 = cosine_similarity query_embedding r.embedding := by
    intro p hp
    have hp1 : p ∈ List.insertionSort candRel
        (corpus.map fun r => (r.scenario_id, cosine_similarity query_embedding r.embedding)) :=
      List.mem_of_mem_take hp
    have hp2 : p ∈ corpus.map
        fun r => (r.scenario_id, cosine_similarity query_embedding r.embedding) :=
      (List.perm_insertionSort candRel _).mem_iff.mp hp1
    rcases List.mem_map.mp hp2 with ⟨r, hr, hrp⟩
    exact ⟨r, hr, by rw [← hrp], by rw [← hrp]⟩
  refine ⟨?_, ?_, hmem, ?_⟩
  · -- length
    unfold search_similar_scenarios
    rw [List.length_take, List.Perm.length_eq (List.perm_insertionSort candRel _),
      List.length_map]
    exact Nat.min_eq_left hkn
  · -- sortedness in terms of the real similarity values
    have hsorted : (List.insertionSort candRel
        (corpus.map fun r => (r.scenario_id, cosine_similarity query_embedding r.embedding))).Pairwise
          candRel :=
      List.sorted_insertionSort candRel _
    have htake : (search_similar_scenarios corpus query_embedding top_k).Pairwise candRel :=
      hsorted.take
    refine htake.imp_of_mem ?_
    intro a b ha hb hab
    rcases hmem a ha with ⟨ra, hra, _, ha2⟩
    rcases hmem b hb with ⟨rb, hrb, _, hb2⟩
    rcases cosine_similarity_isSome hq (hrec ra hra) with ⟨sa, hsa⟩
    rcases cosine_similarity_isSome hq (hrec rb hrb) with ⟨sb, hsb⟩
    unfold candRel at hab
    rw [hb2, hsb, ha2, hsa] at hab ⊢
    simp only [simKeyLe] at hab
    simpa [simVal] using (SimScore.leP_iff_val sb sa).mp hab
  · rfl

/-- A concrete two-record corpus used to witness the retriever claim. -/
def witnessCorpusC2 : List EmbeddingRecord :=
  [⟨"a", [1, 0]⟩, ⟨"b", [0, 1]⟩]

/-- Witness for claim C2 at a concrete corpus, query and `top_k`. -/
theorem claim_C2_retriever_topk_witness :
    ((0 < 1 ∧ 1 ≤ witnessCorpusC2.length ∧ normSq ([1, 0] : List ℚ) ≠ 0 ∧
        ∀ r ∈ witnessCorpusC2, normSq r.embedding ≠ 0) ∧
      ((search_similar_scenarios witnessCorpusC2 [1, 0] 1).length = 1 ∧
        (search_similar_scenarios witnessCorpusC2 [1, 0] 1).Pairwise
          (fun x y => simVal y.2 ≤ simVal x.2) ∧
        (∀ p ∈ search_similar_scenarios witnessCorpusC2 [1, 0] 1,
          ∃ r ∈ witnessCorpusC2, p.1 = r.scenario_id ∧
            p.2 = cosine_similarity [1, 0] r.embedding) ∧
        retrieve_candidates witnessCorpusC2 [1, 0] 1 =
          search_similar_scenarios witnessCorpusC2 [1, 0] 1)) :=
  ⟨⟨by decide, by decide, by simp [normSq, dotQ],
      by simp [witnessCorpusC2, normSq, dotQ]⟩,
    claim_C2_retriever_topk witnessCorpusC2 [1, 0] 1
      (by decide) (by decide) (by simp [normSq, dotQ])
      (by simp [witnessCorpusC2, normSq, dotQ])⟩

/-! ## Python string primitives

The scripts operate on text via `str.lower()`, `str.split()`, substring
containment (`in`) and `str.strip()`.  These are modelled character-wise
(faithful for ASCII text, which is all the corpus and the marker words use). -/

/-- `str.lower()`. -/
def pyLower (s : String) : String :=
  ⟨s.data.map Char.toLower⟩

/-- Helper for `str.split()`: split a character list on runs of whitespace,
discarding empty pieces.  `cur` is the reversed current word. -/
def pyWordsAux (cur : List Char) : List Char → List (List Char)
  | [] => if cur.isEmpty then [] else [cur.reverse]
  | c :: rest =>
    if c.isWhitespace then
      if cur.isEmpty then pyWordsAux [] rest
      else cur.reverse :: pyWordsAux [] rest
    else
      pyWordsAux (c :: cur) rest

/-- `str.split()` with no separator: split on whitespace runs, no empty words. -/
def pySplit (s : String) : List String :=
  (pyWordsAux [] s.data).map fun cs => ⟨cs⟩

/-- Substring test on character lists: does `needle` occur contiguously in the
second list? -/
def isSubstrList (needle : List Char) : List Char → Bool
  | [] => needle.isEmpty
  | c :: rest => needle.isPrefixOf (c :: rest) || isSubstrList needle rest

/-- Python's `needle in hay` for strings: substring containment. -/
def strContains (hay needle : String) : Bool :=
  isSubstrList needle.data hay.data

/-- `str.strip()`: drop whitespace from both ends. -/
def pyStrip (s : String) : String :=
  ⟨((s.data.dropWhile Char.isWhitespace).reverse.dropWhile Char.isWhitespace).reverse⟩

/-- Python truthiness of `Optional[str]`: `None` and the empty string are
falsy. -/
def pyFalsy : Option String → Bool
  | none => true
  | some s => s = ""

/-! ## Scenario records (the `life_situations` documents) -/

structure Scenario where
  id : String
  title : String
  description : String
  category : String
  difficulty : String
  keyInsights : List String
  tags : List String

/-! ## Quality scorer (quality_check_all.py, lines 35-68) -/

/-- `QUALITY_THRESHOLD = 0.70`. -/
def QUALITY_THRESHOLD : ℚ := 0.70

/-- The deduplicated words of the lower-cased title and description that are
longer than 3 characters:

    keywords = set()
    keywords.update(scenario.get('title', '').lower().split())
    keywords.update(scenario.get('description', '').lower().split())
    keywords = [k for k in keywords if len(k) > 3]
-/
def scenarioKeywords (scenario : Scenario) : List String :=
  ((pySplit (pyLower scenario.title) ++ pySplit (pyLower scenario.description)).eraseDups).filter
    fun k => k.length > 3

/-- `matched = [k for k in keywords if k in response_lower]`. -/
def matchedKeywords (scenario : Scenario) (response : String) : List String :=
  (scenarioKeywords scenario).filter fun k => strContains (pyLower response) k

/-- `keyword_score = len(matched) / max(len(keywords), 1)`. -/
def keyword_score (scenario : Scenario) (response : String) : ℚ :=
  ((matchedKeywords scenario response).length : ℚ) /
    ((max (scenarioKeywords scenario).length 1 : ℕ) : ℚ)

/-- `matched_tags = [t for t in tags if t.lower() in response_lower]`. -/
def matchedTags (scenario : Scenario) (response : String) : List String :=
  scenario.tags.filter fun t => strContains (pyLower response) (pyLower t)

/-- `tag_score = len(matched_tags) / max(len(tags), 1)`. -/
def tag_score (scenario : Scenario) (response : String) : ℚ :=
  ((matchedTags scenario response).length : ℚ) /
    ((max scenario.tags.length 1 : ℕ) : ℚ)

/-- `length_score = min(word_count / 100, 1.0)` where
`word_count = len(response.split())`. -/
def length_score (response : String) : ℚ :=
  min (((pySplit response).length : ℚ) / 100) 1

/-- `markers = ["mindful", "breath", "practice", "ground", "aware",
"compassion", "technique"]`. -/
def wellnessMarkers : List String :=
  ["mindful", "breath", "practice", "ground", "aware", "compassion", "technique"]

/-- `wellness_count = sum(1 for m in markers if m in response_lower)`. -/
def wellnessCount (response : String) : ℕ :=
  (wellnessMarkers.filter fun m => strContains (pyLower response) m).length

/-- `wellness_score = min(wellness_count / 3, 1.0)`. -/
def wellness_score (response : String) : ℚ :=
  min ((wellnessCount response : ℚ) / 3) 1

/-- The weighted total score of `calculate_quality_score`:

    score = (keyword_score * 0.40 + tag_score * 0.30 +
             length_score * 0.15 + wellness_score * 0.15)
-/
def quality_score (scenario : Scenario) (response : String) : ℚ :=
  keyword_score scenario response * 0.40 + tag_score scenario response * 0.30 +
    length_score response * 0.15 + wellness_score response * 0.15

/-- `calculate_quality_score` (quality_check_all.py, lines 35-68): returns
`score, matched, matched_tags`. -/
def calculate_quality_score (scenario : Scenario) (response : String) :
    ℚ × List String × List String :=
  (quality_score scenario response, matchedKeywords scenario response,
    matchedTags scenario response)

/-- `flag = 'pass' if score >= QUALITY_THRESHOLD else 'fail'`
(quality_check_all.py, line 102). -/
def flagForScore (score : ℚ) : String :=
  if score ≥ QUALITY_THRESHOLD then ("pass") else ("fail")

theorem keyword_score_nonneg (scenario : Scenario) (response : String) :
    0 ≤ keyword_score scenario response :=
  div_nonneg (Nat.cast_nonneg _) (Nat.cast_nonneg _)

theorem keyword_score_le_one (scenario : Scenario) (response : String) :
    keyword_score scenario response ≤ 1 := by
  unfold keyword_score
  rw [div_le_one (by exact_mod_cast Nat.lt_of_lt_of_le Nat.zero_lt_one (le_max_right _ 1))]
  exact_mod_cast le_trans (List.length_filter_le _ _) (le_max_left _ 1)

theorem tag_score_nonneg (scenario : Scenario) (response : String) :
    0 ≤ tag_score scenario response :=
  div_nonneg (Nat.cast_nonneg _) (Nat.cast_nonneg _)

theorem tag_score_le_one (scenario : Scenario) (response : String) :
    tag_score scenario response ≤ 1 := by
  unfold tag_score
  rw [div_le_one (by exact_mod_cast Nat.lt_of_lt_of_le Nat.zero_lt_one (le_max_right _ 1))]
  exact_mod_cast le_trans (List.length_filter_le _ _) (le_max_left _ 1)

theorem length_score_nonneg (response : String) : 0 ≤ length_score response :=
  le_min (div_nonneg (Nat.cast_nonneg _) (by norm_num)) zero_le_one

theorem length_score_le_one (response : String) : length_score response ≤ 1 :=
  min_le_right _ _

theorem wellness_score_nonneg (response : String) : 0 ≤ wellness_score response :=
  le_min (div_nonneg (Nat.cast_nonneg _) (by norm_num)) zero_le_one

theorem wellness_score_le_one (response : String) : wellness_score response ≤ 1 :=
  min_le_right _ _

/-- Claim C5.  For every scenario and response, each of the four sub-scores
lies in `[0,1]` (the `max(·, 1)` guards make the keyword/tag denominators at
least 1, so no division by zero occurs — in particular both are well defined
when the scenario has no keywords or no tags), the four weights sum to 1, and
the total quality score lies in `[0,1]`. -/
theorem claim_C5_quality_score_in_unit_interval (scenario : Scenario) (response : String) :
    (0 ≤ keyword_score scenario response ∧ keyword_score scenario response ≤ 1) ∧
    (0 ≤ tag_score scenario response ∧ tag_score scenario response ≤ 1) ∧
    (0 ≤ length_score response ∧ length_score response ≤ 1) ∧
    (0 ≤ wellness_score response ∧ wellness_score response ≤ 1) ∧
    (1 ≤ max (scenarioKeywords scenario).length 1 ∧ 1 ≤ max scenario.tags.length 1) ∧
    ((0.40 : ℚ) + 0.30 + 0.15 + 0.15 = 1) ∧
    (0 ≤ quality_score scenario response ∧ quality_score scenario response ≤ 1) := by
  have hk0 := keyword_score_nonneg scenario response
  have hk1 := keyword_score_le_one scenario response
  have ht0 := tag_score_nonneg scenario response
  have ht1 := tag_score_le_one scenario response
  have hl0 := length_score_nonneg response
  have hl1 := length_score_le_one response
  have hw0 := wellness_score_nonneg response
  have hw1 := wellness_score_le_one response
  refine ⟨⟨hk0, hk1⟩, ⟨ht0, ht1⟩, ⟨hl0, hl1⟩, ⟨hw0, hw1⟩,
    ⟨le_max_right _ 1, le_max_right _ 1⟩, by norm_num, ?_, ?_⟩
  · unfold quality_score
    have := mul_nonneg hk0 (by norm_num : (0:ℚ) ≤ 0.40)
    have := mul_nonneg ht0 (by norm_num : (0:ℚ) ≤ 0.30)
    have := mul_nonneg hl0 (by norm_num : (0:ℚ) ≤ 0.15)
    have := mul_nonneg hw0 (by norm_num : (0:ℚ) ≤ 0.15)
    linarith
  · unfold quality_score
    have h1 : keyword_score scenario response * 0.40 ≤ 0.40 := by nlinarith
    have h2 : tag_score scenario response * 0.30 ≤ 0.30 := by nlinarith
    have h3 : length_score response * 0.15 ≤ 0.15 := by nlinarith
    have h4 : wellness_score response * 0.15 ≤ 0.15 := by nlinarith
    linarith

/-- Claim C3 (amended).  For a scenario with at least one keyword and at least
one tag, a response that contains every keyword, contains every tag
case-insensitively, has at least 100 words and contains at least 3 wellness
marker words scores exactly 1.0 and is flagged "pass".  (The original claim,
with no nonemptiness requirement, fails: see the counterexample.) -/
theorem claim_C3_perfect_response_scores_one (scenario : Scenario) (response : String)
    (hkw : scenarioKeywords scenario ≠ [])
    (htg : scenario.tags ≠ [])
    (hkmatch : ∀ k ∈ scenarioKeywords scenario, strContains (pyLower response) k = true)
    (htmatch : ∀ t ∈ scenario.tags, strContains (pyLower response) (pyLower t) = true)
    (hlen : 100 ≤ (pySplit response).length)
    (hwell : 3 ≤ wellnessCount response) :
    quality_score scenario response = 1 ∧
    flagForScore (quality_score scenario response) = "pass" := by
  have hK : matchedKeywords scenario response = scenarioKeywords scenario :=
    List.filter_eq_self.mpr hkmatch
  have hT : matchedTags scenario response = scenario.tags :=
    List.filter_eq_self.mpr htmatch
  have hKlen : 1 ≤ (scenarioKeywords scenario).length :=
    List.length_pos.mpr hkw
  have hTlen : 1 ≤ scenario.tags.length :=
    List.length_pos.mpr htg
  have hks : keyword_score scenario response = 1 := by
    unfold keyword_score
    rw [hK, Nat.max_eq_left hKlen]
    exact div_self (Nat.cast_ne_zero.mpr (Nat.one_le_iff_ne_zero.mp hKlen))
  have hts : tag_score scenario response = 1 := by
    unfold tag_score
    rw [hT, Nat.max_eq_left hTlen]
    exact div_self (Nat.cast_ne_zero.mpr (Nat.one_le_iff_ne_zero.mp hTlen))
  have hls : length_score response = 1 := by
    unfold length_score
    rw [min_eq_right]
    rw [le_div_iff₀ (by norm_num : (0:ℚ) < 100)]
    · exact_mod_cast hlen
  have hws : wellness_score response = 1 := by
    unfold wellness_score
    rw [min_eq_right]
    rw [le_div_iff₀ (by norm_num : (0:ℚ) < 3)]
    · exact_mod_cast hwell
  have hscore : quality_score scenario response = 1 := by
    unfold quality_score
    rw [hks, hts, hls, hws]
    norm_num
  refine ⟨hscore, ?_⟩
  rw [hscore]
  unfold flagForScore QUALITY_THRESHOLD
  norm_num

/-- A 100-word response containing the keyword "calm", the tag "calm" and the
three wellness markers "mindful", "breath" and "practice". -/
def respC3 : String :=
  "calm mindful breath practice" ++ String.join (List.replicate 96 (" x"))

/-- A scenario with one keyword ("calm") and one tag ("calm"). -/
def scenarioC3 : Scenario :=
  ⟨"s1", "calm", "", "", "", [], ["calm"]⟩

/-- A degenerate scenario with no keywords and no tags. -/
def scenarioC3empty : Scenario :=
  ⟨"s0", "", "", "", "", [], []⟩

set_option maxRecDepth 40000 in
/-- Counterexample to claim C3 as stated: for a scenario with no keywords and
no tags, a response that (vacuously) contains every keyword and every tag, has
100 words and 3 wellness markers scores 0.3, not 1.0, and is flagged "fail" —
the `max(·,1)` denominator guards turn the empty keyword and tag sets into
0-valued sub-scores. -/
theorem claim_C3_counterexample_empty_scenario :
    (∀ k ∈ scenarioKeywords scenarioC3empty, strContains (pyLower respC3) k = true) ∧
    (∀ t ∈ scenarioC3empty.tags, strContains (pyLower respC3) (pyLower t) = true) ∧
    100 ≤ (pySplit respC3).length ∧
    3 ≤ wellnessCount respC3 ∧
    quality_score scenarioC3empty respC3 = 0.30 ∧
    quality_score scenarioC3empty respC3 ≠ 1 ∧
    flagForScore (quality_score scenarioC3empty respC3) = "fail" := by
  have hkw : scenarioKeywords scenarioC3empty = [] := by decide
  have hmk : matchedKeywords scenarioC3empty respC3 = [] := by
    unfold matchedKeywords
    rw [hkw]
    rfl
  have hlen : (pySplit respC3).length = 100 := by decide
  have hwc : wellnessCount respC3 = 3 := by decide
  have hks : keyword_score scenarioC3empty respC3 = 0 := by
    unfold keyword_score
    rw [hkw, hmk]
    norm_num
  have hts : tag_score scenarioC3empty respC3 = 0 := by
    unfold tag_score matchedTags
    show ((List.filter _ []).length : ℚ) / _ = 0
    norm_num
  have hls : length_score respC3 = 1 := by
    unfold length_score
    rw [hlen]
    norm_num
  have hws : wellness_score respC3 = 1 := by
    unfold wellness_score
    rw [hwc]
    norm_num
  have hscore : quality_score scenarioC3empty respC3 = 0.30 := by
    unfold quality_score
    rw [hks, hts, hls, hws]
    norm_num
  refine ⟨?_, ?_, by rw [hlen], by rw [hwc], hscore, by rw [hscore]; norm_num, ?_⟩
  · intro k hk
    rw [hkw] at hk
    cases hk
  · intro t ht
    cases ht
  · rw [hscore]
    unfold flagForScore QUALITY_THRESHOLD
    norm_num

set_option maxRecDepth 40000 in
/-- Witness for the amended claim C3 at a concrete scenario and response. -/
theorem claim_C3_perfect_response_scores_one_witness :
    ((scenarioKeywords scenarioC3 ≠ [] ∧ scenarioC3.tags ≠ []) ∧
      (∀ k ∈ scenarioKeywords scenarioC3, strContains (pyLower respC3) k = true) ∧
      (∀ t ∈ scenarioC3.tags, strContains (pyLower respC3) (pyLower t) = true) ∧
      100 ≤ (pySplit respC3).length ∧ 3 ≤ wellnessCount respC3) ∧
    (quality_score scenarioC3 respC3 = 1 ∧
      flagForScore (quality_score scenarioC3 respC3) = "pass") :=
  ⟨⟨⟨by decide, by decide⟩, by decide, by decide, by decide, by decide⟩,
    claim_C3_perfect_response_scores_one scenarioC3 respC3
      (by decide) (by decide) (by decide) (by decide) (by decide) (by decide)⟩

/-! ## Generated-response records (`llm_response/v1` documents) -/

/-- `MODEL_NAME = os.getenv("MODEL_NAME", "mistral")` (default value). -/
def MODEL_NAME : String := "mistral"

/-- A generated-response record.  `generate_all_responses.py` creates it with
`quality_score` and `quality_flag` null; `quality_check_all.py` later fills
the four quality fields in place. -/
structure GenResponseRecord where
  scenario_id : String
  response : String
  generated_at : String
  model : String
  quality_score : Option ℚ
  quality_flag : Option String
  matched_keywords : List String
  matched_tags : List String

/-! ## Quality-check job (quality_check_all.py, lines 70-127) -/

/-- The in-place `.update({...})` of one response record
(quality_check_all.py, lines 99-110):

    score, keywords, tags = calculate_quality_score(scenario_data, response_text)
    flag = 'pass' if score >= QUALITY_THRESHOLD else 'fail'
    ....update({'quality_score': float(score), 'quality_flag': flag,
                'matched_keywords': keywords, 'matched_tags': tags})
-/
def quality_update (scenario : Scenario) (r : GenResponseRecord) : GenResponseRecord :=
  let scored := calculate_quality_score scenario r.response
  { r with
    quality_score := some scored.1
    quality_flag := some (flagForScore scored.1)
    matched_keywords := scored.2.1
    matched_tags := scored.2.2 }

/-- One iteration of the quality-check loop over a scenario: a missing
response record is skipped (`no_response`), an existing one is updated in
place; no branch deletes a record. -/
def qualityCheckStep (scenario : Scenario) (record : Option GenResponseRecord) :
    Option GenResponseRecord :=
  match record with
  | none => none
  | some r => some (quality_update scenario r)

/-- The whole quality-check job: every scenario's response sub-document is
processed independently. -/
def quality_check_all (store : List (Scenario × Option GenResponseRecord)) :
    List (Scenario × Option GenResponseRecord) :=
  store.map fun p => (p.1, qualityCheckStep p.1 p.2)

/-! ## Generation job (generate_all_responses.py, lines 84-131) -/

/-- One iteration of the generation loop (lines 104-127): skip when the
record already exists; otherwise call the LLM (modelled as a function from
scenario to optional raw completion, `none` = request error) and create the
record only when the completion is truthy (non-`None` and non-empty):

    existing = ...document('v1').get()
    if existing.exists: continue
    response = generate_response(scenario_data)
    if not response: failed += 1; continue
    ....document('v1').set({'scenario_id': ..., 'response': response,
        'generated_at': ..., 'model': MODEL_NAME,
        'quality_score': None, 'quality_flag': None})
-/
def generateStep (llm : Scenario → Option String) (now : String) (scenario : Scenario)
    (existing : Option GenResponseRecord) : Option GenResponseRecord :=
  match existing with
  | some r => some r
  | none =>
    match llm scenario with
    | none => none
    | some response =>
      if response = "" then none
      else
        some ⟨scenario.id, response, now, MODEL_NAME, none, none, [], []⟩

/-- The whole generation job over the corpus. -/
def generate_all_responses (llm : Scenario → Option String) (now : String)
    (store : List (Scenario × Option GenResponseRecord)) :
    List (Scenario × Option GenResponseRecord) :=
  store.map fun p => (p.1, generateStep llm now p.1 p.2)

/-! ## Claims C6 and C7 -/

/-- Claim C6.  The quality-check job only annotates existing records in
place: presence of a record is preserved both ways (nothing is deleted, and
nothing is created for scenarios without a response), the update writes
exactly the computed score, flag and matched lists, the flag is "pass" iff
the score is at least 0.70, and the response text, generation timestamp,
model and scenario-id fields are unchanged — also for failing records. -/
theorem claim_C6_quality_job_annotates_in_place
    (store : List (Scenario × Option GenResponseRecord))
    (scenario : Scenario) (r : GenResponseRecord) :
    ((quality_check_all store).length = store.length ∧
      (∀ p ∈ quality_check_all store, ∃ q ∈ store, p.1 = q.1 ∧
        p.2 = qualityCheckStep q.1 q.2 ∧ p.2.isSome = q.2.isSome)) ∧
    qualityCheckStep scenario none = none ∧
    qualityCheckStep scenario (some r) = some (quality_update scenario r) ∧
    ((quality_update scenario r).quality_score =
        some (calculate_quality_score scenario r.response).1 ∧
      (quality_update scenario r).quality_flag =
        some (flagForScore (calculate_quality_score scenario r.response).1) ∧
      (quality_update scenario r).matched_keywords =
        (calculate_quality_score scenario r.response).2.1 ∧
      (quality_update scenario r).matched_tags =
        (calculate_quality_score scenario r.response).2.2) ∧
    ((quality_update scenario r).quality_flag = some ("pass") ↔
      QUALITY_THRESHOLD ≤ (calculate_quality_score scenario r.response).1) ∧
    ((quality_update scenario r).response = r.response ∧
      (quality_update scenario r).generated_at = r.generated_at ∧
      (quality_update scenario r).model = r.model ∧
      (quality_update scenario r).scenario_id = r.scenario_id) := by
  refine ⟨⟨by simp [quality_check_all], ?_⟩, rfl, rfl, ⟨rfl, rfl, rfl, rfl⟩, ?_, ⟨rfl, rfl, rfl, rfl⟩⟩
  · intro p hp
    rcases List.mem_map.mp hp with ⟨q, hq, hpq⟩
    refine ⟨q, hq, ?_, ?_, ?_⟩
    · rw [← hpq]
    · rw [← hpq]
    · rw [← hpq]
      cases hq2 : q.2 <;> simp [qualityCheckStep]
  · unfold quality_update flagForScore
    by_cases h : QUALITY_THRESHOLD ≤ (calculate_quality_score scenario r.response).1
    · simp [ge_iff_le, h]
    · simp only [ge_iff_le, h, if_false]
      constructor
      · intro hcontra
        simp at hcontra
      · intro hcontra
        exact hcontra.elim

theorem generateStep_idem (llm : Scenario → Option String) (now : String)
    (scenario : Scenario) (x : Option GenResponseRecord) :
    generateStep llm now scenario (generateStep llm now scenario x) =
      generateStep llm now scenario x := by
  cases x with
  | some r => rfl
  | none =>
    cases hl : llm scenario with
    | none => simp [generateStep, hl]
    | some response =>
      by_cases hr : response = ""
      · simp [generateStep, hl, hr]
      · simp [generateStep, hl, hr]

/-- Claim C7.  The generation step is idempotent: when a record for the
scenario is already present the step returns the stored record unchanged and
performs no generation (its result does not depend on the LLM function or
the timestamp at all), a whole rerun of the job is a no-op on the result of
a first run, and every entry whose record is present survives the job
unchanged. -/
theorem claim_C7_generation_step_idempotent (llm llm2 : Scenario → Option String)
    (now now2 : String) (scenario : Scenario) (r : GenResponseRecord)
    (store : List (Scenario × Option GenResponseRecord)) :
    generateStep llm now scenario (some r) = some r ∧
    generateStep llm now scenario (some r) = generateStep llm2 now2 scenario (some r) ∧
    generate_all_responses llm now (generate_all_responses llm now store) =
      generate_all_responses llm now store ∧
    (∀ p ∈ store, p.2.isSome = true →
      (p.1, generateStep llm now p.1 p.2) = p) := by
  refine ⟨rfl, rfl, ?_, ?_⟩
  · unfold generate_all_responses
    rw [List.map_map]
    have hfun : ((fun p : Scenario × Option GenResponseRecord =>
          (p.1, generateStep llm now p.1 p.2)) ∘
        fun p : Scenario × Option GenResponseRecord =>
          (p.1, generateStep llm now p.1 p.2)) =
        fun p : Scenario × Option GenResponseRecord =>
          (p.1, generateStep llm now p.1 p.2) := by
      funext p
      simp only [Function.comp]
      rw [generateStep_idem]
    rw [hfun]
  · intro p _ hsome
    obtain ⟨p1, p2⟩ := p
    rcases hx : p2 with _ | r'
    · subst hx; cases hsome
    · subst hx; rfl

/-- A concrete response record used to witness the job claims. -/
def recordW : GenResponseRecord :=
  ⟨"s1", respC3, "2024-01-01T00:00:00", "mistral", none, none, [], []⟩

/-- A concrete store used to witness the job claims. -/
def storeW : List (Scenario × Option GenResponseRecord) :=
  [(scenarioC3, some recordW), (scenarioC3empty, none)]

/-- Witness for claim C6 at a concrete store, scenario and record. -/
theorem claim_C6_quality_job_annotates_in_place_witness :
    (quality_check_all storeW).length = storeW.length ∧
    qualityCheckStep scenarioC3 none = none ∧
    qualityCheckStep scenarioC3 (some recordW) = some (quality_update scenarioC3 recordW) ∧
    (quality_update scenarioC3 recordW).response = recordW.response :=
  ⟨(claim_C6_quality_job_annotates_in_place storeW scenarioC3 recordW).1.1,
    (claim_C6_quality_job_annotates_in_place storeW scenarioC3 recordW).2.1,
    (claim_C6_quality_job_annotates_in_place storeW scenarioC3 recordW).2.2.1,
    (claim_C6_quality_job_annotates_in_place storeW scenarioC3 recordW).2.2.2.2.2.1⟩

/-- Witness for claim C7 at a concrete LLM function, timestamp, scenario,
record and store. -/
theorem claim_C7_generation_step_idempotent_witness :
    generateStep (fun _ => some ("hello")) "t0" scenarioC3 (some recordW) = some recordW ∧
    generate_all_responses (fun _ => some ("hello")) "t0"
        (generate_all_responses (fun _ => some ("hello")) "t0" storeW) =
      generate_all_responses (fun _ => some ("hello")) "t0" storeW :=
  ⟨(claim_C7_generation_step_idempotent (fun _ => some ("hello")) (fun _ => none)
      "t0" "t1" scenarioC3 recordW storeW).1,
    (claim_C7_generation_step_idempotent (fun _ => some ("hello")) (fun _ => none)
      "t0" "t1" scenarioC3 recordW storeW).2.2.1⟩

/-! ## The "Talk to Me" endpoint (talk_to_me_function.py) -/

/-- A scenario as retrieved (with similarity) by `retrieve_scenarios`
(talk_to_me_function.py, lines 123-139). -/
structure RetrievedScenario where
  id : String
  title : String
  description : String
  keyInsights : List String
  category : String
  similarity : Option SimScore

/-- Outcome of the single HTTP request to the Ollama endpoint.  `success`
carries the `response` field of the JSON body; the three failure
constructors correspond to `requests.exceptions.Timeout`,
`requests.exceptions.ConnectionError` and any other exception
(e.g. `raise_for_status`). -/
inductive LLMOutcome where
  | success (body : String)
  | timeout
  | connError
  | otherError

/-- `generate_coaching_with_ollama` (talk_to_me_function.py, lines 194-225):
on success return the stripped completion text; every failure branch
(timeout, connection error, other exception) logs and returns `None` — the
explicit "unavailable" signal. -/
def generate_coaching_with_ollama (outcome : LLMOutcome) : Option String :=
  match outcome with
  | .success body => some (pyStrip body)
  | .timeout => none
  | .connError => none
  | .otherError => none

/-- The dict returned by `generate_coaching_template_fallback`. -/
structure CoachingJson where
  empathy : String
  mindfulPerspective : String
  practicalSteps : List String
  actionPlan : List (String × Nat)
  relatedPractices : List String
  warnings : List String

/-- `generate_coaching_template_fallback` (talk_to_me_function.py, lines
227-268): deterministic template response used when Ollama is unavailable. -/
def generate_coaching_template_fallback (user_query : String)
    (scenarios : List RetrievedScenario) : CoachingJson :=
  if scenarios.isEmpty then
    { empathy := "I understand you\x27re facing a challenge.",
      mindfulPerspective := "Remember that all challenges are opportunities for growth.",
      practicalSteps := ["Take 3 deep breaths", "Reflect on what you can control",
        "Reach out for support if needed"],
      actionPlan := [("Take 3-4 minute breaths", 2), ("Journal about the situation", 5),
        ("Reach out to a trusted person", 5)],
      relatedPractices := ["breathing_box", "meditation_5min", "grounding"],
      warnings := ["This is not professional advice. Seek help if needed."] }
  else
    let all_insights := scenarios.flatMap fun s => s.keyInsights.take 2
    { empathy := "I hear you about \x27" ++ pyLower user_query ++
        "\x27. That\x27s a real challenge many people face.",
      mindfulPerspective := "Our app\x27s wisdom on this topic emphasizes: " ++
        (match all_insights with
          | [] => "self-compassion and patience"
          | i :: _ => i) ++ ".",
      practicalSteps :=
        if all_insights.isEmpty then ["Reflect", "Seek support", "Practice daily"]
        else all_insights.take 3,
      actionPlan := [("Pause and observe without judgment", 2),
        ("Practice grounding: notice 5 things you see", 3),
        ("Take one small action today", 5)],
      relatedPractices := ["breathing_box", "grounding_5_4_3_2_1", "self_compassion"],
      warnings := ["This guidance is supportive, not professional medical advice"] }

/-- The dict returned by `parse_coaching_response`. -/
structure ParsedCoaching where
  query : String
  response : String
  retrievedScenarios : List (String × String × Option SimScore)
  actionPlan : List (String × Nat)
  relatedPractices : List String
  modelVersion : String
  warningLevel : String

/-- `parse_coaching_response` (talk_to_me_function.py, lines 274-296): wraps
the raw LLM text in the fixed data contract; the action plan and related
practices are constants. -/
def parse_coaching_response (raw_response : String) (query : String)
    (scenarios : List RetrievedScenario) : ParsedCoaching :=
  { query := query,
    response := raw_response,
    retrievedScenarios := scenarios.map fun s => (s.id, s.title, s.similarity),
    actionPlan := [("Pause and breathe", 2), ("Journal or reflect", 5), ("Take one action", 5)],
    relatedPractices := ["breathing_box", "meditation", "grounding"],
    modelVersion := MODEL_NAME,
    warningLevel := "info" }

/-- The value of `coaching_response_json` inside `talk_to_me`: either the
fallback dict or the parsed dict.  `.get("actionPlan", [])` and
`.get("relatedPractices", [])` read the corresponding key, present in both
shapes. -/
inductive CoachingDoc where
  | fb (j : CoachingJson)
  | parsed (p : ParsedCoaching)

def CoachingDoc.actionPlan : CoachingDoc → List (String × Nat)
  | .fb j => j.actionPlan
  | .parsed p => p.actionPlan

def CoachingDoc.relatedPractices : CoachingDoc → List String
  | .fb j => j.relatedPractices
  | .parsed p => p.relatedPractices

/-- The endpoint's response JSON (talk_to_me_function.py, lines 365-383);
`generatedAt` and `latencySeconds` are wall-clock values, not modelled. -/
structure TalkResponse where
  success : Bool
  query : String
  response : String
  retrievedScenarios : List (String × String × Option SimScore)
  actionPlan : List (String × Nat)
  relatedPractices : List String
  modelVersion : String
  offline : Bool

/-- The response-assembly logic of `talk_to_me` (talk_to_me_function.py,
lines 341-388), for a non-empty query, parametrised by the retrieved
scenarios and the outcome of the single LLM request:

    coaching_response = generate_coaching_with_ollama(rag_prompt)
    if not coaching_response:
        coaching_response_json = generate_coaching_template_fallback(...)
    else:
        coaching_response_json = parse_coaching_response(...)
    response_data = {
        "success": True, "query": user_query,
        "response": coaching_response or "Using cached response",
        "retrievedScenarios": [...],
        "actionPlan": coaching_response_json.get("actionPlan", []),
        "relatedPractices": coaching_response_json.get("relatedPractices", []),
        "modelVersion": MODEL_NAME,
        "offline": coaching_response is None}
-/
def talk_to_me (user_query : String) (retrieved_scenarios : List RetrievedScenario)
    (outcome : LLMOutcome) : TalkResponse :=
  let coaching_response := generate_coaching_with_ollama outcome
  let coaching_response_json : CoachingDoc :=
    if pyFalsy coaching_response then
      .fb (generate_coaching_template_fallback user_query retrieved_scenarios)
    else
      .parsed (parse_coaching_response (coaching_response.getD ("")) user_query
        retrieved_scenarios)
  { success := true,
    query := user_query,
    response := if pyFalsy coaching_response then "Using cached response"
      else coaching_response.getD (""),
    retrievedScenarios := retrieved_scenarios.map fun s => (s.id, s.title, s.similarity),
    actionPlan := coaching_response_json.actionPlan,
    relatedPractices := coaching_response_json.relatedPractices,
    modelVersion := MODEL_NAME,
    offline := coaching_response.isNone }

/-! ## Claims C4, C9 and C10 -/

/-- Claim C4.  For every prompt (query and retrieved context), a connection
error or a timeout of the LLM HTTP call makes the generator return the
explicit unavailable signal `None` (the generator is a total function — no
exception reaches the caller), and the endpoint then uses the template
fallback (its action plan and related practices come from the fallback
document) and sets `offline = true`; a successful LLM call yields
`offline = false`. -/
theorem claim_C4_llm_failure_routes_to_fallback (user_query : String)
    (retrieved_scenarios : List RetrievedScenario) :
    (∀ outcome, outcome = LLMOutcome.timeout ∨ outcome = LLMOutcome.connError →
      generate_coaching_with_ollama outcome = none ∧
      (talk_to_me user_query retrieved_scenarios outcome).offline = true ∧
      (talk_to_me user_query retrieved_scenarios outcome).actionPlan =
        (generate_coaching_template_fallback user_query retrieved_scenarios).actionPlan ∧
      (talk_to_me user_query retrieved_scenarios outcome).relatedPractices =
        (generate_coaching_template_fallback user_query retrieved_scenarios).relatedPractices) ∧
    (∀ body, (talk_to_me user_query retrieved_scenarios (LLMOutcome.success body)).offline
      = false) := by
  constructor
  · rintro outcome (rfl | rfl) <;> exact ⟨rfl, rfl, rfl, rfl⟩
  · intro body
    rfl

/-- Witness for claim C4 at a concrete query, corpus and outcomes. -/
theorem claim_C4_llm_failure_routes_to_fallback_witness :
    ((LLMOutcome.timeout = LLMOutcome.timeout ∨ LLMOutcome.timeout = LLMOutcome.connError) ∧
      generate_coaching_with_ollama LLMOutcome.timeout = none ∧
      (talk_to_me ("I feel anxious") [] LLMOutcome.timeout).offline = true) ∧
    (talk_to_me ("I feel anxious") [] (LLMOutcome.success ("Take a breath."))).offline = false :=
  ⟨⟨Or.inl rfl,
    ((claim_C4_llm_failure_routes_to_fallback ("I feel anxious") []).1
      LLMOutcome.timeout (Or.inl rfl)).1,
    ((claim_C4_llm_failure_routes_to_fallback ("I feel anxious") []).1
      LLMOutcome.timeout (Or.inl rfl)).2.1⟩,
    (claim_C4_llm_failure_routes_to_fallback ("I feel anxious") []).2 ("Take a breath.")⟩

/-- Claim C9.  When the LLM is unavailable (the generator returned `None`)
the endpoint's `response` field is exactly the fixed string
"Using cached response"; the fallback's empathy and mindful-perspective texts
never equal the response field, and only the fallback's action plan and
related practices are copied into the endpoint response. -/
theorem claim_C9_fallback_response_is_cached_string (user_query : String)
    (retrieved_scenarios : List RetrievedScenario) (outcome : LLMOutcome)
    (h : generate_coaching_with_ollama outcome = none) :
    (talk_to_me user_query retrieved_scenarios outcome).response = "Using cached response" ∧
    (talk_to_me user_query retrieved_scenarios outcome).actionPlan =
      (generate_coaching_template_fallback user_query retrieved_scenarios).actionPlan ∧
    (talk_to_me user_query retrieved_scenarios outcome).relatedPractices =
      (generate_coaching_template_fallback user_query retrieved_scenarios).relatedPractices ∧
    (talk_to_me user_query retrieved_scenarios outcome).response ≠
      (generate_coaching_template_fallback user_query retrieved_scenarios).empathy ∧
    (talk_to_me user_query retrieved_scenarios outcome).response ≠
      (generate_coaching_template_fallback user_query retrieved_scenarios).mindfulPerspective := by
  have hresp : (talk_to_me user_query retrieved_scenarios outcome).response =
      "Using cached response" := by
    unfold talk_to_me
    rw [h]
    rfl
  have hplan : (talk_to_me user_query retrieved_scenarios outcome).actionPlan =
      (generate_coaching_template_fallback user_query retrieved_scenarios).actionPlan := by
    unfold talk_to_me
    rw [h]
    rfl
  have hpr : (talk_to_me user_query retrieved_scenarios outcome).relatedPractices =
      (generate_coaching_template_fallback user_query retrieved_scenarios).relatedPractices := by
    unfold talk_to_me
    rw [h]
    rfl
  refine ⟨hresp, hplan, hpr, ?_, ?_⟩
  · rw [hresp]
    unfold generate_coaching_template_fallback
    by_cases hs : retrieved_scenarios.isEmpty = true
    · rw [if_pos hs]
      decide
    · rw [if_neg hs]
      intro heq
      have hl := congrArg String.length heq
      simp only [String.length_append] at hl
      have h1 : ("Using cached response" : String).length = 21 := rfl
      have h2 : ("I hear you about \x27" : String).length = 18 := rfl
      have h3 : ("\x27. That\x27s a real challenge many people face." : String).length = 44 := rfl
      rw [h1, h2, h3] at hl
      linarith
  · rw [hresp]
    unfold generate_coaching_template_fallback
    by_cases hs : retrieved_scenarios.isEmpty = true
    · rw [if_pos hs]
      decide
    · rw [if_neg hs]
      intro heq
      have hl := congrArg String.length heq
      simp only [String.length_append] at hl
      have h1 : ("Using cached response" : String).length = 21 := rfl
      have h2 : ("Our app\x27s wisdom on this topic emphasizes: " : String).length = 43 := rfl
      have h3 : ("." : String).length = 1 := rfl
      rw [h1, h2, h3] at hl
      linarith

/-- Witness for claim C9 at a concrete query, scenario list and outcome. -/
theorem claim_C9_fallback_response_is_cached_string_witness :
    (generate_coaching_with_ollama LLMOutcome.connError = none) ∧
    ((talk_to_me ("work stress") [⟨"s1", "Work Anxiety", "d", ["breathe deeply"], "work",
        none⟩] LLMOutcome.connError).response = "Using cached response" ∧
      (talk_to_me ("work stress") [⟨"s1", "Work Anxiety", "d", ["breathe deeply"], "work",
        none⟩] LLMOutcome.connError).response ≠
        (generate_coaching_template_fallback ("work stress") [⟨"s1", "Work Anxiety", "d",
          ["breathe deeply"], "work", none⟩]).empathy) :=
  ⟨rfl,
    (claim_C9_fallback_response_is_cached_string ("work stress")
      [⟨"s1", "Work Anxiety", "d", ["breathe deeply"], "work", none⟩]
      LLMOutcome.connError rfl).1,
    (claim_C9_fallback_response_is_cached_string ("work stress")
      [⟨"s1", "Work Anxiety", "d", ["breathe deeply"], "work", none⟩]
      LLMOutcome.connError rfl).2.2.2.1⟩

/-- Counterexample to claim C10 as stated: an LLM call that succeeds but
whose completion text strips to the empty string is falsy in Python, so
`talk_to_me` takes the fallback branch, and the action plan is the fallback's
(here the empty-scenario template), not the constant list of
`parse_coaching_response`. -/
theorem claim_C10_counterexample_empty_completion :
    generate_coaching_with_ollama (LLMOutcome.success ("")) = some ("") ∧
    (talk_to_me ("q") [] (LLMOutcome.success (""))).offline = false ∧
    (talk_to_me ("q") [] (LLMOutcome.success (""))).actionPlan =
      [("Take 3-4 minute breaths", 2), ("Journal about the situation", 5),
        ("Reach out to a trusted person", 5)] ∧
    (talk_to_me ("q") [] (LLMOutcome.success (""))).actionPlan ≠
      [("Pause and breathe", 2), ("Journal or reflect", 5), ("Take one action", 5)] := by
  refine ⟨rfl, rfl, rfl, ?_⟩
  decide

/-- Claim C10 (amended).  For every request in which the LLM call succeeds
with a completion that is non-empty after stripping, the endpoint's action
plan is the constant three-step list and its related practices are the
constant list, independent of the completion text, the query and the
retrieved scenarios (and `offline` is `false`). -/
theorem claim_C10_success_constant_action_plan (user_query : String)
    (retrieved_scenarios : List RetrievedScenario) (body : String)
    (h : pyStrip body ≠ "") :
    (talk_to_me user_query retrieved_scenarios (LLMOutcome.success body)).actionPlan =
      [("Pause and breathe", 2), ("Journal or reflect", 5), ("Take one action", 5)] ∧
    (talk_to_me user_query retrieved_scenarios (LLMOutcome.success body)).relatedPractices =
      ["breathing_box", "meditation", "grounding"] ∧
    (talk_to_me user_query retrieved_scenarios (LLMOutcome.success body)).offline = false := by
  have hfalsy : pyFalsy (some (pyStrip body)) = false := by
    simp [pyFalsy, h]
  refine ⟨?_, ?_, ?_⟩ <;>
    simp [talk_to_me, hfalsy, CoachingDoc.actionPlan, CoachingDoc.relatedPractices,
      parse_coaching_response, generate_coaching_with_ollama]

/-- Witness for the amended claim C10 at a concrete request. -/
theorem claim_C10_success_constant_action_plan_witness :
    (pyStrip ("  Take a mindful pause.  ") ≠ "") ∧
    ((talk_to_me ("help") [] (LLMOutcome.success ("  Take a mindful pause.  "))).actionPlan =
      [("Pause and breathe", 2), ("Journal or reflect", 5), ("Take one action", 5)] ∧
      (talk_to_me ("help") [] (LLMOutcome.success ("  Take a mindful pause.  "))).relatedPractices =
        ["breathing_box", "meditation", "grounding"] ∧
      (talk_to_me ("help") [] (LLMOutcome.success ("  Take a mindful pause.  "))).offline = false) :=
  ⟨by decide,
    claim_C10_success_constant_action_plan ("help") [] ("  Take a mindful pause.  ") (by decide)⟩

end MindfulLiving
